import Mathlib

/-!
Shallow embedding of the docs-to-app backend services that the claims
concern: the OpenAPI/Swagger specification normalizer
(`backend/services/openapi_parser.py`, class `OpenAPIParser`) and the
Markdown section splitter (`backend/services/doc_parser.py`,
`DocumentParser._extract_sections`).

Decoded JSON/YAML documents are modelled by the inductive `Json`; Python
dicts keep insertion order, so objects are association lists.  Python
runtime failures (AttributeError, TypeError, KeyError, IndexError) and the
single specification-level `raise` are modelled by the `PyError` type and
an `Except PyError` monad threaded through every function, mirroring the
order in which the Python source evaluates each sub-expression.
-/

namespace DocsApp

/-- A decoded JSON/YAML value.  Python dict ordering is the list order. -/
inductive Json where
  | null : Json
  | bool (b : Bool) : Json
  | num (n : Int) : Json
  | str (s : String) : Json
  | arr (xs : List Json) : Json
  | obj (fields : List (String × Json)) : Json

mutual

/-- Decidable equality of decoded values. -/
def Json.decEq : (a b : Json) → Decidable (a = b)
  | .null, .null => .isTrue rfl
  | .null, .bool _ => .isFalse (fun h => Json.noConfusion h)
  | .null, .num _ => .isFalse (fun h => Json.noConfusion h)
  | .null, .str _ => .isFalse (fun h => Json.noConfusion h)
  | .null, .arr _ => .isFalse (fun h => Json.noConfusion h)
  | .null, .obj _ => .isFalse (fun h => Json.noConfusion h)
  | .bool _, .null => .isFalse (fun h => Json.noConfusion h)
  | .bool a, .bool b =>
    if h : a = b then .isTrue (by rw [h]) else .isFalse (by intro hh; injection hh; contradiction)
  | .bool _, .num _ => .isFalse (fun h => Json.noConfusion h)
  | .bool _, .str _ => .isFalse (fun h => Json.noConfusion h)
  | .bool _, .arr _ => .isFalse (fun h => Json.noConfusion h)
  | .bool _, .obj _ => .isFalse (fun h => Json.noConfusion h)
  | .num _, .null => .isFalse (fun h => Json.noConfusion h)
  | .num _, .bool _ => .isFalse (fun h => Json.noConfusion h)
  | .num a, .num b =>
    if h : a = b then .isTrue (by rw [h]) else .isFalse (by intro hh; injection hh; contradiction)
  | .num _, .str _ => .isFalse (fun h => Json.noConfusion h)
  | .num _, .arr _ => .isFalse (fun h => Json.noConfusion h)
  | .num _, .obj _ => .isFalse (fun h => Json.noConfusion h)
  | .str _, .null => .isFalse (fun h => Json.noConfusion h)
  | .str _, .bool _ => .isFalse (fun h => Json.noConfusion h)
  | .str _, .num _ => .isFalse (fun h => Json.noConfusion h)
  | .str a, .str b =>
    if h : a = b then .isTrue (by rw [h]) else .isFalse (by intro hh; injection hh; contradiction)
  | .str _, .arr _ => .isFalse (fun h => Json.noConfusion h)
  | .str _, .obj _ => .isFalse (fun h => Json.noConfusion h)
  | .arr _, .null => .isFalse (fun h => Json.noConfusion h)
  | .arr _, .bool _ => .isFalse (fun h => Json.noConfusion h)
  | .arr _, .num _ => .isFalse (fun h => Json.noConfusion h)
  | .arr _, .str _ => .isFalse (fun h => Json.noConfusion h)
  | .arr xs, .arr ys =>
    match Json.decEqList xs ys with
    | .isTrue h => .isTrue (by rw [h])
    | .isFalse h => .isFalse (by intro hh; injection hh; contradiction)
  | .arr _, .obj _ => .isFalse (fun h => Json.noConfusion h)
  | .obj _, .null => .isFalse (fun h => Json.noConfusion h)
  | .obj _, .bool _ => .isFalse (fun h => Json.noConfusion h)
  | .obj _, .num _ => .isFalse (fun h => Json.noConfusion h)
  | .obj _, .str _ => .isFalse (fun h => Json.noConfusion h)
  | .obj _, .arr _ => .isFalse (fun h => Json.noConfusion h)
  | .obj fs, .obj gs =>
    match Json.decEqFields fs gs with
    | .isTrue h => .isTrue (by rw [h])
    | .isFalse h => .isFalse (by intro hh; injection hh; contradiction)

/-- Decidable equality of value lists. -/
def Json.decEqList : (a b : List Json) → Decidable (a = b)
  | [], [] => .isTrue rfl
  | [], _ :: _ => .isFalse (by simp)
  | _ :: _, [] => .isFalse (by simp)
  | x :: xs, y :: ys =>
    match Json.decEq x y, Json.decEqList xs ys with
    | .isTrue h1, .isTrue h2 => .isTrue (by rw [h1, h2])
    | .isFalse h1, _ => .isFalse (by intro hh; injection hh; contradiction)
    | _, .isFalse h2 => .isFalse (by intro hh; injection hh; contradiction)

/-- Decidable equality of field lists. -/
def Json.decEqFields : (a b : List (String × Json)) → Decidable (a = b)
  | [], [] => .isTrue rfl
  | [], _ :: _ => .isFalse (by simp)
  | _ :: _, [] => .isFalse (by simp)
  | (k1, v1) :: fs, (k2, v2) :: gs =>
    if hk : k1 = k2 then
      match Json.decEq v1 v2, Json.decEqFields fs gs with
      | .isTrue h1, .isTrue h2 => .isTrue (by rw [hk, h1, h2])
      | .isFalse h1, _ =>
        .isFalse (by intro hh; injection hh with hp ht; injection hp; contradiction)
      | _, .isFalse h2 => .isFalse (by intro hh; injection hh; contradiction)
    else
      .isFalse (by intro hh; injection hh with hp ht; injection hp; contradiction)

end

instance : DecidableEq Json := Json.decEq

/-- Python runtime/raised errors that the normalizer can produce. -/
inductive PyError where
  /-- The `raise Exception("Not a valid OpenAPI/Swagger specification")`,
  the spec's `InvalidSpecification`. -/
  | invalidSpecification : PyError
  /-- Calling a method (`get`, `items`, `startswith`, ...) on a value
  that does not have it. -/
  | attributeError : PyError
  /-- Unsupported operand / not iterable / not subscriptable. -/
  | typeError : PyError
  /-- Subscripting a dict with an absent key. -/
  | keyError : PyError
  /-- Python `list index out of range`. -/
  | indexError : PyError
deriving DecidableEq, Repr

/-- First value stored under `k` in an association list (dict lookup). -/
def Json.lookup : List (String × Json) → String → Option Json
  | [], _ => none
  | (k, v) :: fs, key => if k == key then some v else Json.lookup fs key

/-- Total dict lookup used in theorem statements: value under `k`, or
`none` when the value is not an object or lacks the key. -/
def Json.lookupKey : Json → String → Option Json
  | .obj fs, k => Json.lookup fs k
  | _, _ => none

/-- Total dict lookup with default, used in theorem statements. -/
def Json.getKeyD (j : Json) (k : String) (d : Json) : Json :=
  (j.lookupKey k).getD d

/-- Python truthiness of a decoded value. -/
def Json.truthy : Json → Bool
  | .null => false
  | .bool b => b
  | .num n => n != 0
  | .str s => !s.isEmpty
  | .arr xs => !xs.isEmpty
  | .obj fs => !fs.isEmpty

/-- Python `s.startswith(p)` on strings (list-based so that it computes
by kernel reduction). -/
def strStartsWith (s p : String) : Bool :=
  p.toList.isPrefixOf s.toList

/-- Python `k in s` substring test on strings. -/
def strHasSubstr : List Char → List Char → Bool
  | s, k =>
    if k.isPrefixOf s then true
    else
      match s with
      | [] => false
      | _ :: t => strHasSubstr t k

/-- Python `str.upper()` (the ASCII case, which is all the source feeds
it: lowercase HTTP method names). -/
def strUpper (s : String) : String :=
  String.mk (s.toList.map Char.toUpper)

/-- Python `str.lower()` (the ASCII case: uppercased HTTP method names). -/
def strLower (s : String) : String :=
  String.mk (s.toList.map Char.toLower)

/-- Python `x.get(k, d)`: only dicts have `.get`. -/
def Json.pyGetD (j : Json) (k : String) (d : Json) : Except PyError Json :=
  match j with
  | .obj fs => .ok ((Json.lookup fs k).getD d)
  | _ => .error .attributeError

/-- Python `x.get(k)` (default `None`). -/
def Json.pyGet (j : Json) (k : String) : Except PyError Json :=
  j.pyGetD k .null

/-- Python `k in x` for a string `k`: dict key membership, list
membership, or substring test; `TypeError` otherwise. -/
def Json.pyIn (k : String) (j : Json) : Except PyError Bool :=
  match j with
  | .obj fs => .ok (fs.any (fun p => p.1 == k))
  | .arr xs => .ok (xs.any (fun x => x == .str k))
  | .str s => .ok (strHasSubstr s.toList k.toList)
  | _ => .error .typeError

/-- Python `x[k]` for a string key. -/
def Json.pySubscript (j : Json) (k : String) : Except PyError Json :=
  match j with
  | .obj fs =>
    match Json.lookup fs k with
    | some v => .ok v
    | none => .error .keyError
  | _ => .error .typeError

/-- Python `x.items()`: only dicts have `.items`. -/
def Json.pyItems (j : Json) : Except PyError (List (String × Json)) :=
  match j with
  | .obj fs => .ok fs
  | _ => .error .attributeError

/-- Python `for v in x`: lists yield elements, dicts yield keys, strings
yield one-character strings; other values are not iterable. -/
def Json.iterList : Json → Except PyError (List Json)
  | .arr xs => .ok xs
  | .obj fs => .ok (fs.map (fun p => .str p.1))
  | .str s => .ok (s.toList.map (fun c => .str (String.mk [c])))
  | _ => .error .typeError

/-- Python `x[0]`. -/
def Json.pyIndexZero : Json → Except PyError Json
  | .arr [] => .error .indexError
  | .arr (x :: _) => .ok x
  | .str s =>
    match s.toList with
    | [] => .error .indexError
    | c :: _ => .ok (.str (String.mk [c]))
  | .obj _ => .error .keyError
  | _ => .error .typeError

/-- Python `a + b` for the sequence cases the source exercises. -/
def Json.pyConcat (a b : Json) : Except PyError Json :=
  match a, b with
  | .arr xs, .arr ys => .ok (.arr (xs ++ ys))
  | .str s, .str t => .ok (.str (s ++ t))
  | _, _ => .error .typeError

/-- Python `x.startswith(p)`: only strings have `.startswith`. -/
def Json.startswith (j : Json) (p : String) : Except PyError Bool :=
  match j with
  | .str s => .ok (strStartsWith s p)
  | _ => .error .attributeError

mutual

/-- Python `repr` of a decoded value (as far as the source can observe
it through f-string interpolation of non-string values). -/
def Json.pyRepr : Json → String
  | .null => "None"
  | .bool true => "True"
  | .bool false => "False"
  | .num n => toString n
  | .str s => "\x27" ++ s ++ "\x27"
  | .arr xs => "[" ++ Json.pyReprList xs ++ "]"
  | .obj fs => "\x7b" ++ Json.pyReprFields fs ++ "\x7d"

/-- Comma-separated `repr` of list elements. -/
def Json.pyReprList : List Json → String
  | [] => ""
  | [x] => Json.pyRepr x
  | x :: xs => Json.pyRepr x ++ ", " ++ Json.pyReprList xs

/-- Comma-separated `repr` of dict entries. -/
def Json.pyReprFields : List (String × Json) → String
  | [] => ""
  | [(k, v)] => "\x27" ++ k ++ "\x27: " ++ Json.pyRepr v
  | (k, v) :: fs => "\x27" ++ k ++ "\x27: " ++ Json.pyRepr v ++ ", " ++ Json.pyReprFields fs

end

/-- Python `str(x)`, as used by f-string interpolation. -/
def Json.pyStr : Json → String
  | .str s => s
  | j => j.pyRepr

/-- Python `a or b` on decoded values (`a` when truthy, else `b`). -/
def Json.pyOr (a b : Json) : Json :=
  if a.truthy then a else b

/-- Dialect detection, `parse_spec` lines 85-91: the `openapi` key wins,
then `swagger`; with neither, the parse raises (`InvalidSpecification`). -/
def detect_version (spec : Json) : Except PyError Json := do
  if (← Json.pyIn "openapi" spec) then
    spec.pySubscript "openapi"
  else if (← Json.pyIn "swagger" spec) then
    spec.pySubscript "swagger"
  else
    .error .invalidSpecification

/-- Embeds `OpenAPIParser._extract_info`. -/
def extract_info (spec : Json) : Except PyError Json := do
  let info ← spec.pyGetD "info" (.obj [])
  let title ← info.pyGetD "title" (.str "API Documentation")
  let vers ← info.pyGetD "version" (.str "1.0.0")
  let descr ← info.pyGetD "description" (.str "")
  let contact ← info.pyGetD "contact" (.obj [])
  let license ← info.pyGetD "license" (.obj [])
  let tos ← info.pyGetD "termsOfService" (.str "")
  return .obj [("title", title), ("version", vers), ("description", descr),
    ("contact", contact), ("license", license), ("terms_of_service", tos)]

/-- Embeds `OpenAPIParser._extract_servers`: 3.x reads the `servers` list; any
other dialect string takes the Swagger 2.0 branch, synthesizing one entry
per scheme (default `["https"]`) as `scheme://host + basePath`. -/
def extract_servers (spec version : Json) : Except PyError Json := do
  if (← version.startswith "3") then
    let servers ← spec.pyGetD "servers" (.arr [])
    let items ← servers.iterList
    let entries ← items.mapM (fun s => do
      let url ← s.pyGetD "url" (.str "")
      let descr ← s.pyGetD "description" (.str "")
      return Json.obj [("url", url), ("description", descr)])
    return .arr entries
  else
    let host ← spec.pyGetD "host" (.str "")
    let base_path ← spec.pyGetD "basePath" (.str "")
    let schemes ← spec.pyGetD "schemes" (.arr [.str "https"])
    let items ← schemes.iterList
    return .arr (items.map (fun scheme =>
      Json.obj [("url", .str (scheme.pyStr ++ "://" ++ host.pyStr ++ base_path.pyStr)),
        ("description", .str "API Server")]))

/-- Embeds `OpenAPIParser._extract_auth`. -/
def extract_auth (spec version : Json) : Except PyError Json := do
  if (← version.startswith "3") then
    let components ← spec.pyGetD "components" (.obj [])
    let security_schemes ← components.pyGetD "securitySchemes" (.obj [])
    let items ← security_schemes.pyItems
    let entries ← items.mapM (fun p => do
      let ty ← p.2.pyGet "type"
      let descr ← p.2.pyGetD "description" (.str "")
      let loc ← p.2.pyGet "in"
      let sch ← p.2.pyGet "scheme"
      let bf ← p.2.pyGet "bearerFormat"
      let flows ← p.2.pyGet "flows"
      return Json.obj [("name", .str p.1), ("type", ty), ("description", descr),
        ("in", loc), ("scheme", sch), ("bearer_format", bf), ("flows", flows)])
    return .arr entries
  else
    let security_defs ← spec.pyGetD "securityDefinitions" (.obj [])
    let items ← security_defs.pyItems
    let entries ← items.mapM (fun p => do
      let ty ← p.2.pyGet "type"
      let descr ← p.2.pyGetD "description" (.str "")
      let loc ← p.2.pyGet "in"
      let flow ← p.2.pyGet "flow"
      return Json.obj [("name", .str p.1), ("type", ty), ("description", descr),
        ("in", loc), ("flow", flow)])
    return .arr entries

/-- Loop body of `OpenAPIParser._parse_parameters`: one parameter,
normalized per dialect (3.x reads type/format/default/example from the
nested `schema`; 2.0 reads them flat off the parameter object). -/
def parse_parameter (version param : Json) : Except PyError Json := do
  if (← version.startswith "3") then
    let schema ← param.pyGetD "schema" (.obj [])
    let name ← param.pyGet "name"
    let loc ← param.pyGet "in"
    let descr ← param.pyGetD "description" (.str "")
    let req ← param.pyGetD "required" (.bool false)
    let ty ← schema.pyGet "type"
    let fmt ← schema.pyGet "format"
    let dflt ← schema.pyGet "default"
    let ex1 ← param.pyGet "example"
    let ex2 ← schema.pyGet "example"
    return Json.obj [("name", name), ("in", loc), ("description", descr),
      ("required", req), ("type", ty), ("format", fmt), ("default", dflt),
      ("example", Json.pyOr ex1 ex2)]
  else
    let name ← param.pyGet "name"
    let loc ← param.pyGet "in"
    let descr ← param.pyGetD "description" (.str "")
    let req ← param.pyGetD "required" (.bool false)
    let ty ← param.pyGet "type"
    let fmt ← param.pyGet "format"
    let dflt ← param.pyGet "default"
    return Json.obj [("name", name), ("in", loc), ("description", descr),
      ("required", req), ("type", ty), ("format", fmt), ("default", dflt)]

/-- Embeds `OpenAPIParser._parse_parameters`: iterate the combined list. -/
def parse_parameters (version params : Json) : Except PyError (List Json) := do
  let items ← params.iterList
  items.mapM (parse_parameter version)

/-- Embeds `OpenAPIParser._parse_request_body`: `None` stays unset; otherwise the
first content type in mapping order wins and the loop returns immediately,
so every other content type is dropped; an empty `content` yields `None`.
Called for every dialect (`_extract_endpoints` does not gate it on 3.x). -/
def parse_request_body (request_body : Json) : Except PyError Json := do
  if !request_body.truthy then
    return .null
  let content ← request_body.pyGetD "content" (.obj [])
  let items ← content.pyItems
  match items with
  | [] => return .null
  | (content_type, media_type) :: _ => do
    let schema ← media_type.pyGetD "schema" (.obj [])
    let req ← request_body.pyGetD "required" (.bool false)
    let descr ← request_body.pyGetD "description" (.str "")
    let ex1 ← media_type.pyGet "example"
    let ex2 ← schema.pyGet "example"
    return Json.obj [("content_type", .str content_type), ("required", req),
      ("description", descr), ("schema", schema), ("example", Json.pyOr ex1 ex2)]

/-- Embeds `OpenAPIParser._parse_responses`. -/
def parse_responses (version responses : Json) : Except PyError Json := do
  let items ← responses.pyItems
  let entries ← items.mapM (fun p => do
    if (← version.startswith "3") then
      let content ← p.2.pyGetD "content" (.obj [])
      let json_response ← content.pyGetD "application/json" (.obj [])
      let schema ← json_response.pyGetD "schema" (.obj [])
      let descr ← p.2.pyGetD "description" (.str "")
      let ex1 ← json_response.pyGet "example"
      let ex2 ← schema.pyGet "example"
      return (p.1, Json.obj [("description", descr), ("schema", schema),
        ("example", Json.pyOr ex1 ex2)])
    else
      let descr ← p.2.pyGetD "description" (.str "")
      let schema ← p.2.pyGetD "schema" (.obj [])
      let exs ← p.2.pyGetD "examples" (.obj [])
      let ex ← exs.pyGet "application/json"
      return (p.1, Json.obj [("description", descr), ("schema", schema), ("example", ex)]))
  return .obj entries

/-- The seven HTTP methods recognized by `_extract_endpoints`. -/
def http_methods : List String :=
  ["get", "post", "put", "patch", "delete", "head", "options"]

/-- Body of the `_extract_endpoints` loop for one (path, method) pair,
in the source's evaluation order: combined parameter list first, then the
endpoint dict's values left to right. -/
def endpoint_for (version : Json) (path : String) (path_params : Json)
    (method : String) (operation : Json) : Except PyError Json := do
  let op_params ← operation.pyGetD "parameters" (.arr [])
  let all_params ← path_params.pyConcat op_params
  let summary ← operation.pyGetD "summary" (.str "")
  let descr ← operation.pyGetD "description" (.str "")
  let op_id ← operation.pyGetD "operationId" (.str "")
  let tags ← operation.pyGetD "tags" (.arr [])
  let params ← parse_parameters version all_params
  let rb ← operation.pyGet "requestBody"
  let request_body ← parse_request_body rb
  let resps ← operation.pyGetD "responses" (.obj [])
  let responses ← parse_responses version resps
  let security ← operation.pyGetD "security" (.arr [])
  let deprecated ← operation.pyGetD "deprecated" (.bool false)
  return Json.obj [("path", .str path), ("method", .str (strUpper method)),
    ("summary", summary), ("description", descr), ("operation_id", op_id),
    ("tags", tags), ("parameters", .arr params), ("request_body", request_body),
    ("responses", responses), ("security", security), ("deprecated", deprecated)]

/-- Embeds `OpenAPIParser._extract_endpoints`: iterate `paths` in declaration
order, then the seven methods; skip methods absent from the path item. -/
def extract_endpoints (spec version : Json) : Except PyError (List Json) := do
  let paths ← spec.pyGetD "paths" (.obj [])
  let items ← paths.pyItems
  items.foldlM (fun acc pi => do
    let path_params ← pi.2.pyGetD "parameters" (.arr [])
    http_methods.foldlM (fun acc2 method => do
      if (← Json.pyIn method pi.2) then
        let operation ← pi.2.pySubscript method
        let e ← endpoint_for version pi.1 path_params method operation
        return acc2 ++ [e]
      else
        return acc2) acc) []

/-- Embeds `OpenAPIParser._extract_schemas`. -/
def extract_schemas (spec version : Json) : Except PyError Json := do
  if (← version.startswith "3") then
    let components ← spec.pyGetD "components" (.obj [])
    components.pyGetD "schemas" (.obj [])
  else
    spec.pyGetD "definitions" (.obj [])

/-- Embeds `OpenAPIParser._extract_tags`. -/
def extract_tags (spec : Json) : Except PyError Json := do
  let tags ← spec.pyGetD "tags" (.arr [])
  let items ← tags.iterList
  let entries ← items.mapM (fun tag => do
    let name ← tag.pyGetD "name" (.str "")
    let descr ← tag.pyGetD "description" (.str "")
    return Json.obj [("name", name), ("description", descr)])
  return .arr entries

/-- Python `x.lower()`: only strings have `.lower`. -/
def Json.pyLower (j : Json) : Except PyError String :=
  match j with
  | .str s => .ok (strLower s)
  | _ => .error .attributeError

/-- Embeds `OpenAPIParser._generate_curl_example`.  Note the unconditional read
of `self.spec.get('servers', [{}])[0]`: a `servers` key holding an empty
list makes the subscript raise IndexError. -/
def generate_curl_example (spec endpoint : Json) : Except PyError String := do
  let servers ← spec.pyGetD "servers" (.arr [.obj []])
  let first ← servers.pyIndexZero
  let server ← first.pyGetD "url" (.str "https://api.example.com")
  let path ← endpoint.pySubscript "path"
  let method ← endpoint.pySubscript "method"
  let curl := "curl -X " ++ method.pyStr ++ " \\\n  \x27" ++ server.pyStr ++ path.pyStr ++ "\x27"
  let curl := curl ++ " \\\n  -H \x27Content-Type: application/json\x27"
  let sec ← endpoint.pyGet "security"
  let curl := if sec.truthy then curl ++ " \\\n  -H \x27Authorization: Bearer YOUR_API_KEY\x27" else curl
  if method == Json.str "POST" || method == Json.str "PUT" || method == Json.str "PATCH" then
    let rb ← endpoint.pyGet "request_body"
    if rb.truthy then
      return curl ++ " \\\n  -d \x27\x7b\"example\": \"data\"\x7d\x27"
    else
      return curl
  else
    return curl

/-- Embeds `OpenAPIParser._generate_python_example`. -/
def generate_python_example (spec endpoint : Json) : Except PyError String := do
  let servers ← spec.pyGetD "servers" (.arr [.obj []])
  let first ← servers.pyIndexZero
  let server ← first.pyGetD "url" (.str "https://api.example.com")
  let path ← endpoint.pySubscript "path"
  let method_json ← endpoint.pySubscript "method"
  let method ← method_json.pyLower
  let code := "import requests\n\nurl = \x27" ++ server.pyStr ++ path.pyStr ++
    "\x27\nheaders = \x7b\n    \x27Content-Type\x27: \x27application/json\x27,\n    \x27Authorization\x27: \x27Bearer YOUR_API_KEY\x27\n\x7d\n"
  let code :=
    if method == "post" || method == "put" || method == "patch" then
      code ++ "\ndata = \x7b\n    \x27example\x27: \x27data\x27\n\x7d\n\nresponse = requests." ++
        method ++ "(url, headers=headers, json=data)\n"
    else
      code ++ "\nresponse = requests." ++ method ++ "(url, headers=headers)\n"
  return code ++ "\nprint(response.json())\n"

/-- Embeds `OpenAPIParser._generate_javascript_example`. -/
def generate_javascript_example (spec endpoint : Json) : Except PyError String := do
  let servers ← spec.pyGetD "servers" (.arr [.obj []])
  let first ← servers.pyIndexZero
  let server ← first.pyGetD "url" (.str "https://api.example.com")
  let path ← endpoint.pySubscript "path"
  let method ← endpoint.pySubscript "method"
  let code := "const url = \x27" ++ server.pyStr ++ path.pyStr ++
    "\x27;\n\nconst options = \x7b\n  method: \x27" ++ method.pyStr ++
    "\x27,\n  headers: \x7b\n    \x27Content-Type\x27: \x27application/json\x27,\n    \x27Authorization\x27: \x27Bearer YOUR_API_KEY\x27\n  \x7d"
  let code :=
    if method == Json.str "POST" || method == Json.str "PUT" || method == Json.str "PATCH" then
      code ++ ",\n  body: JSON.stringify(\x7b\n    example: \x27data\x27\n  \x7d)"
    else
      code
  return code ++ "\n\x7d;\n\nfetch(url, options)\n  .then(response => response.json())\n  .then(data => console.log(data))\n  .catch(error => console.error(\x27Error:\x27, error));\n"

/-- Embeds `OpenAPIParser._generate_examples`: snippets for the first five
endpoints, languages filled in the order curl, python, javascript. -/
def generate_examples (spec : Json) (endpoints : List Json) : Except PyError Json := do
  let entries ← (endpoints.take 5).mapM (fun endpoint => do
    let method ← endpoint.pySubscript "method"
    let path ← endpoint.pySubscript "path"
    let summary ← endpoint.pySubscript "summary"
    let curl ← generate_curl_example spec endpoint
    let py ← generate_python_example spec endpoint
    let js ← generate_javascript_example spec endpoint
    return Json.obj [("endpoint", .str (method.pyStr ++ " " ++ path.pyStr)),
      ("summary", summary),
      ("languages", .obj [("curl", .str curl), ("python", .str py), ("javascript", .str js)])])
  return .arr entries

/-- The dict returned by `OpenAPIParser.parse_spec`, one Lean field per
Python key. -/
structure SpecModel where
  version : Json
  info : Json
  servers : Json
  authentication : Json
  endpoints : List Json
  schemas : Json
  examples : Json
  endpoint_count : Nat
  tags : Json
deriving DecidableEq

/-- Embeds `OpenAPIParser.parse_spec`: dialect detection, then the extraction
steps in the source's evaluation order (tags are extracted last, while
the result dict literal is being built). -/
def parse_spec (spec : Json) : Except PyError SpecModel := do
  let version ← detect_version spec
  let info ← extract_info spec
  let servers ← extract_servers spec version
  let auth ← extract_auth spec version
  let endpoints ← extract_endpoints spec version
  let schemas ← extract_schemas spec version
  let examples ← generate_examples spec endpoints
  let tags ← extract_tags spec
  return ⟨version, info, servers, auth, endpoints, schemas, examples, endpoints.length, tags⟩

/-!
The Markdown section splitter, `DocumentParser._extract_sections`
(`backend/services/doc_parser.py`, lines 116-149).
-/

/-- Python `content.split('\n')`: split at every newline, keeping empty
pieces (the empty string splits to `[""]`). -/
def splitLinesAux : List Char → List Char → List String
  | [], acc => [String.mk acc.reverse]
  | c :: cs, acc =>
    if c = '\n' then String.mk acc.reverse :: splitLinesAux cs []
    else splitLinesAux cs (c :: acc)

/-- Python `content.split('\n')` on a string. -/
def splitLines (s : String) : List String :=
  splitLinesAux s.toList []

/-- A character matched by the regex class `\s` (the ASCII cases; the
inputs of interest contain no exotic Unicode whitespace). -/
def isPySpace (c : Char) : Bool :=
  c == ' ' || c == '\t' || c == '\n' || c == '\r' || c == '\x0b' || c == '\x0c'

/-- Embeds `re.match(r'^(#{1,6})\s+(.+)$', line)`: `some (level, title)` when the
line is a heading.  The hash run must be 1-6 long and be followed by at
least one whitespace character; `(.+)` is everything after the maximal
whitespace run, except that when the line ends in whitespace the greedy
`\s+` backtracks one character so `(.+)` captures it. -/
def headingMatch (line : String) : Option (Nat × String) :=
  let cs := line.toList
  let hashes := cs.takeWhile (fun c => c == '#')
  let rest := cs.dropWhile (fun c => c == '#')
  if hashes.length < 1 || 6 < hashes.length then none
  else
    let ws := rest.takeWhile isPySpace
    let body := rest.dropWhile isPySpace
    if ws.isEmpty then none
    else if body.isEmpty then
      match ws.getLast? with
      | some c => if 2 ≤ ws.length then some (hashes.length, String.mk [c]) else none
      | none => none
    else
      some (hashes.length, String.mk body)

/-- The `content` field of a section: a list of lines while the section is
open (and when it is flushed by a later heading), a joined string when the
final section is flushed at end of input. -/
inductive SectionContent where
  | lines (ls : List String) : SectionContent
  | joined (s : String) : SectionContent
deriving DecidableEq, Repr

/-- Whether the content is still the list-of-lines form. -/
def SectionContent.isLineList : SectionContent → Bool
  | .lines _ => true
  | .joined _ => false

/-- One section produced by `_extract_sections`. -/
structure MdSection where
  level : Nat
  title : String
  content : SectionContent
deriving DecidableEq, Repr

/-- The line loop of `_extract_sections`: `secs` are the flushed sections,
`cur` the open one (level, title, accumulated lines).  A heading flushes
the open section with its line list as-is; end of input flushes the open
section with its lines joined by newlines. -/
def sectionsLoop : List String → List MdSection → Option (Nat × String × List String) → List MdSection
  | [], secs, none => secs
  | [], secs, some (lv, t, ls) => secs ++ [⟨lv, t, .joined (String.intercalate "\n" ls)⟩]
  | line :: restLines, secs, cur =>
    match headingMatch line with
    | some (lv, t) =>
      let secs2 :=
        match cur with
        | none => secs
        | some (lv0, t0, ls0) => secs ++ [⟨lv0, t0, .lines ls0⟩]
      sectionsLoop restLines secs2 (some (lv, t, []))
    | none =>
      match cur with
      | none => sectionsLoop restLines secs none
      | some (lv0, t0, ls0) => sectionsLoop restLines secs (some (lv0, t0, ls0 ++ [line]))

/-- Embeds `DocumentParser._extract_sections`. -/
def extract_sections (content : String) : List MdSection :=
  sectionsLoop (splitLines content) [] none

/-- Number of heading lines in the input. -/
def countHeadings (ls : List String) : Nat :=
  (ls.filter (fun l => (headingMatch l).isSome)).length

/-!  Helper lemmas about the `Except` monad and `mapM`. -/

theorem exceptBind_ok {α β : Type} {x : Except PyError α} {f : α → Except PyError β} {c : β}
    (h : x >>= f = .ok c) : ∃ b, x = .ok b ∧ f b = .ok c := by
  cases x with
  | ok b => exact ⟨b, rfl, h⟩
  | error e => exact absurd h (by simp [Bind.bind, Except.bind])

theorem exceptOk_bind {α β : Type} {b : α} {f : α → Except PyError β} :
    (Except.ok b >>= f) = f b := rfl

theorem exceptPure_ok {α : Type} {a : α} : (pure a : Except PyError α) = .ok a := rfl

theorem exceptErr_bind {α β : Type} {e : PyError} {f : α → Except PyError β} :
    ((Except.error e : Except PyError α) >>= f) = .error e := rfl

theorem mapM_ok_cons {α β : Type} {f : α → Except PyError β} {a : α} {l : List α}
    {zs : List β} (h : List.mapM f (a :: l) = .ok zs) :
    ∃ b bs, f a = .ok b ∧ List.mapM f l = .ok bs ∧ zs = b :: bs := by
  rw [List.mapM_cons] at h
  obtain ⟨b, hb, h⟩ := exceptBind_ok h
  obtain ⟨bs, hbs, h⟩ := exceptBind_ok h
  refine ⟨b, bs, hb, hbs, ?_⟩
  cases h
  rfl

theorem mapM_ok_append {α β : Type} {f : α → Except PyError β} {xs ys : List α}
    {zs : List β} (h : List.mapM f (xs ++ ys) = .ok zs) :
    ∃ zx zy, List.mapM f xs = .ok zx ∧ List.mapM f ys = .ok zy ∧ zs = zx ++ zy := by
  induction xs generalizing zs with
  | nil => exact ⟨[], zs, rfl, h, rfl⟩
  | cons a l ih =>
    rw [List.cons_append] at h
    obtain ⟨b, bs, hb, hbs, hzs⟩ := mapM_ok_cons h
    obtain ⟨zx, zy, hzx, hzy, hsplit⟩ := ih hbs
    refine ⟨b :: zx, zy, ?_, hzy, by simp [hzs, hsplit]⟩
    rw [List.mapM_cons, hb, exceptOk_bind, hzx]
    rfl

theorem mapM_ok_length {α β : Type} {f : α → Except PyError β} {xs : List α}
    {zs : List β} (h : List.mapM f xs = .ok zs) : zs.length = xs.length := by
  induction xs generalizing zs with
  | nil =>
    simp only [List.mapM_nil] at h
    cases h
    rfl
  | cons a l ih =>
    obtain ⟨b, bs, _, hbs, hzs⟩ := mapM_ok_cons h
    rw [hzs]
    simp [ih hbs]

theorem mapM_ok_get {α β : Type} {f : α → Except PyError β} {xs : List α}
    {zs : List β} (h : List.mapM f xs = .ok zs) :
    ∀ i (hi : i < xs.length) (hz : i < zs.length),
      f (xs.get ⟨i, hi⟩) = .ok (zs.get ⟨i, hz⟩) := by
  induction xs generalizing zs with
  | nil => intro i hi _; exact absurd hi (by simp)
  | cons a l ih =>
    obtain ⟨b, bs, hb, hbs, hzs⟩ := mapM_ok_cons h
    subst hzs
    intro i hi hz
    cases i with
    | zero => exact hb
    | succ j =>
      exact ih hbs j (Nat.lt_of_succ_lt_succ hi) (Nat.lt_of_succ_lt_succ hz)

theorem lookup_some_any {fs : List (String × Json)} {k : String} {v : Json}
    (h : Json.lookup fs k = some v) : fs.any (fun p => p.1 == k) = true := by
  induction fs with
  | nil => simp [Json.lookup] at h
  | cons p rest ih =>
    rw [Json.lookup] at h
    by_cases hk : p.1 == k
    · simp [List.any_cons, hk]
    · rw [if_neg hk] at h
      simp [List.any_cons, ih h]

theorem lookup_some_ne_nil {fs : List (String × Json)} {k : String} {v : Json}
    (h : Json.lookup fs k = some v) : fs ≠ [] := by
  intro he
  subst he
  simp [Json.lookup] at h

/-- A successfully parsed parameter keeps the `name` value of its input
parameter object (under either dialect branch). -/
theorem parse_parameter_name {version param q : Json}
    (h : parse_parameter version param = .ok q) :
    q.lookupKey "name" = some (param.getKeyD "name" .null) := by
  unfold parse_parameter at h
  obtain ⟨b, hb, h⟩ := exceptBind_ok h
  cases param with
  | null => cases b <;> simp [Json.pyGet, Json.pyGetD, Bind.bind, Except.bind] at h
  | bool _ => cases b <;> simp [Json.pyGet, Json.pyGetD, Bind.bind, Except.bind] at h
  | num _ => cases b <;> simp [Json.pyGet, Json.pyGetD, Bind.bind, Except.bind] at h
  | str _ => cases b <;> simp [Json.pyGet, Json.pyGetD, Bind.bind, Except.bind] at h
  | arr _ => cases b <;> simp [Json.pyGet, Json.pyGetD, Bind.bind, Except.bind] at h
  | obj pfs =>
    cases b with
    | false =>
      rw [if_neg (by decide)] at h
      obtain ⟨name, hname, h⟩ := exceptBind_ok h
      obtain ⟨loc, _, h⟩ := exceptBind_ok h
      obtain ⟨descr, _, h⟩ := exceptBind_ok h
      obtain ⟨req, _, h⟩ := exceptBind_ok h
      obtain ⟨ty, _, h⟩ := exceptBind_ok h
      obtain ⟨fmt, _, h⟩ := exceptBind_ok h
      obtain ⟨dflt, _, h⟩ := exceptBind_ok h
      cases h
      simp only [Json.pyGet, Json.pyGetD] at hname
      cases hname
      simp [Json.lookupKey, Json.lookup, Json.getKeyD]
    | true =>
      rw [if_pos rfl] at h
      obtain ⟨schema, _, h⟩ := exceptBind_ok h
      obtain ⟨name, hname, h⟩ := exceptBind_ok h
      obtain ⟨loc, _, h⟩ := exceptBind_ok h
      obtain ⟨descr, _, h⟩ := exceptBind_ok h
      obtain ⟨req, _, h⟩ := exceptBind_ok h
      obtain ⟨ty, _, h⟩ := exceptBind_ok h
      obtain ⟨fmt, _, h⟩ := exceptBind_ok h
      obtain ⟨dflt, _, h⟩ := exceptBind_ok h
      obtain ⟨ex1, _, h⟩ := exceptBind_ok h
      obtain ⟨ex2, _, h⟩ := exceptBind_ok h
      cases h
      simp only [Json.pyGet, Json.pyGetD] at hname
      cases hname
      simp [Json.lookupKey, Json.lookup, Json.getKeyD]

/-!  The claims. -/

/-- Claim C1: for every decoded specification document whose top-level
mapping contains neither an `openapi` key nor a `swagger` key, the
normalizer's parse fails with the `InvalidSpecification` error (the
source's `raise Exception("Not a valid OpenAPI/Swagger specification")`)
and produces no output model. -/
theorem C1_missing_dialect_marker (fields : List (String × Json))
    (h1 : fields.any (fun p => p.1 == "openapi") = false)
    (h2 : fields.any (fun p => p.1 == "swagger") = false) :
    parse_spec (Json.obj fields) = .error .invalidSpecification := by
  simp [parse_spec, detect_version, Json.pyIn, h1, h2, Bind.bind, Except.bind]

/-- Witness for C1: the empty document has neither key and is rejected. -/
theorem C1_missing_dialect_marker_witness :
    ([] : List (String × Json)).any (fun p => p.1 == "openapi") = false ∧
    ([] : List (String × Json)).any (fun p => p.1 == "swagger") = false ∧
    parse_spec (Json.obj []) = .error .invalidSpecification :=
  ⟨rfl, rfl, C1_missing_dialect_marker [] rfl rfl⟩

/-- Claim C9: when both an `openapi` key and a `swagger` key are present,
dialect detection uses the `openapi` key's value: the detected dialect is
the `openapi` value (whatever the `swagger` value is), and any model the
parse returns carries that value as its version. -/
theorem C9_openapi_key_wins (fs : List (String × Json)) (v : Json)
    (h : Json.lookup fs "openapi" = some v) :
    detect_version (Json.obj fs) = .ok v ∧
    ∀ m, parse_spec (Json.obj fs) = .ok m → m.version = v := by
  have hdet : detect_version (Json.obj fs) = .ok v := by
    simp [detect_version, Json.pyIn, lookup_some_any h, Json.pySubscript, h,
      Bind.bind, Except.bind]
  refine ⟨hdet, ?_⟩
  intro m hm
  rw [parse_spec, hdet, exceptOk_bind] at hm
  obtain ⟨info, _, hm⟩ := exceptBind_ok hm
  obtain ⟨servers, _, hm⟩ := exceptBind_ok hm
  obtain ⟨auth, _, hm⟩ := exceptBind_ok hm
  obtain ⟨endpoints, _, hm⟩ := exceptBind_ok hm
  obtain ⟨schemas, _, hm⟩ := exceptBind_ok hm
  obtain ⟨examples, _, hm⟩ := exceptBind_ok hm
  obtain ⟨tags, _, hm⟩ := exceptBind_ok hm
  cases hm
  rfl

/-- Witness for C9: a document declaring both `openapi: "3.0.0"` and
`swagger: "2.0"` is detected as dialect `"3.0.0"`. -/
theorem C9_openapi_key_wins_witness :
    Json.lookup [("openapi", Json.str "3.0.0"), ("swagger", Json.str "2.0")] "openapi"
      = some (Json.str "3.0.0") ∧
    (detect_version (Json.obj [("openapi", Json.str "3.0.0"), ("swagger", Json.str "2.0")])
      = .ok (Json.str "3.0.0") ∧
    ∀ m, parse_spec (Json.obj [("openapi", Json.str "3.0.0"), ("swagger", Json.str "2.0")])
      = .ok m → m.version = Json.str "3.0.0") :=
  ⟨rfl, C9_openapi_key_wins _ _ rfl⟩

/-- A one-key document whose dialect marker holds the non-2.x, non-3.x
string `"chaos"`. -/
def dialect_chaos_doc : Json := .obj [("openapi", .str "chaos")]

/-- Counterexample to claim C4 as stated: the document whose dialect
marker holds `"chaos"` (neither 2.x- nor 3.x-shaped) is NOT rejected: the
parse succeeds, taking the Swagger 2.0 branch (its servers are
synthesized by the 2.0 rule), and no `UnsupportedDialect` failure exists
anywhere in the code. -/
theorem C4_counterexample :
    (parse_spec dialect_chaos_doc).map (fun m => (m.version, m.servers))
      = .ok (.str "chaos",
          .arr [.obj [("url", .str "https://"), ("description", .str "API Server")]]) := by
  rfl

/-- Claim C4, amended: a present dialect marker is never rejected.  Any
document whose `openapi` key holds a string not starting with `"3"` is
treated as Swagger 2.0: the parse succeeds (on an otherwise empty
document) with that string as its version and 2.0-style servers. -/
theorem C4_no_dialect_rejection (s : String) (hs : strStartsWith s "3" = false) :
    parse_spec (Json.obj [("openapi", Json.str s)]) = .ok
      ⟨.str s,
       .obj [("title", .str "API Documentation"), ("version", .str "1.0.0"),
         ("description", .str ""), ("contact", .obj []), ("license", .obj []),
         ("terms_of_service", .str "")],
       .arr [.obj [("url", .str "https://"), ("description", .str "API Server")]],
       .arr [], [], .obj [], .arr [], 0, .arr []⟩ := by
  simp [parse_spec, detect_version, extract_info, extract_servers, extract_auth,
    extract_endpoints, extract_schemas, generate_examples, extract_tags,
    Json.pyIn, Json.pySubscript, Json.lookup, Json.pyGetD, Json.pyGet,
    Json.startswith, hs, Json.iterList, Json.pyItems, Json.pyStr,
    Bind.bind, Except.bind, pure, Except.pure]
  rfl

/-- Witness for C4's amended theorem at the dialect string `"chaos"`. -/
theorem C4_no_dialect_rejection_witness :
    strStartsWith "chaos" "3" = false ∧
    parse_spec (Json.obj [("openapi", Json.str "chaos")]) = .ok
      ⟨.str "chaos",
       .obj [("title", .str "API Documentation"), ("version", .str "1.0.0"),
         ("description", .str ""), ("contact", .obj []), ("license", .obj []),
         ("terms_of_service", .str "")],
       .arr [.obj [("url", .str "https://"), ("description", .str "API Server")]],
       .arr [], [], .obj [], .arr [], 0, .arr []⟩ :=
  ⟨by decide, C4_no_dialect_rejection "chaos" (by decide)⟩

/-- Claim C5: a 3.x request body whose `content` mapping holds two or more
content types yields exactly one descriptor, built from the first content
type in mapping order; the others (`rest`) do not occur in the result at
all. -/
theorem C5_first_content_type_wins (fs mfs sfs : List (String × Json))
    (ct : String) (rest : List (String × Json)) (hne : rest ≠ [])
    (hc : Json.lookup fs "content" = some (.obj ((ct, .obj mfs) :: rest)))
    (hsch : (Json.obj mfs).getKeyD "schema" (.obj []) = .obj sfs) :
    parse_request_body (Json.obj fs) = .ok (Json.obj
      [("content_type", .str ct),
       ("required", (Json.obj fs).getKeyD "required" (.bool false)),
       ("description", (Json.obj fs).getKeyD "description" (.str "")),
       ("schema", .obj sfs),
       ("example", Json.pyOr ((Json.obj mfs).getKeyD "example" .null)
         ((Json.obj sfs).getKeyD "example" .null))]) := by
  have hfs : fs ≠ [] := lookup_some_ne_nil hc
  have htr : (Json.obj fs).truthy = true := by
    simp [Json.truthy, hfs]
  have hsch' : (Json.lookup mfs "schema").getD (.obj []) = .obj sfs := hsch
  simp [parse_request_body, htr, Json.pyGetD, Json.pyGet, hc, Json.pyItems,
    Json.getKeyD, Json.lookupKey, hsch', Bind.bind, Except.bind, pure, Except.pure]

/-- Witness for C5: a request body offering `application/json` then
`application/xml` keeps only the first. -/
theorem C5_first_content_type_wins_witness :
    ([(("application/xml" : String), Json.obj [])] ≠ []) ∧
    Json.lookup [("content", Json.obj [("application/json", Json.obj []), ("application/xml", Json.obj [])])] "content"
      = some (.obj [("application/json", .obj []), ("application/xml", .obj [])]) ∧
    (Json.obj []).getKeyD "schema" (.obj []) = .obj [] ∧
    parse_request_body (Json.obj [("content", Json.obj [("application/json", Json.obj []), ("application/xml", Json.obj [])])])
      = .ok (Json.obj
        [("content_type", .str "application/json"),
         ("required", (Json.obj [("content", Json.obj [("application/json", Json.obj []), ("application/xml", Json.obj [])])]).getKeyD "required" (.bool false)),
         ("description", (Json.obj [("content", Json.obj [("application/json", Json.obj []), ("application/xml", Json.obj [])])]).getKeyD "description" (.str "")),
         ("schema", .obj []),
         ("example", Json.pyOr ((Json.obj []).getKeyD "example" .null)
           ((Json.obj []).getKeyD "example" .null))]) :=
  ⟨by decide, rfl, rfl,
    C5_first_content_type_wins _ [] [] "application/json" _ (by decide) rfl rfl⟩

/-- Claim C6: for every Swagger 2.0 document (any dialect string not
starting with `"3"`), server extraction yields one entry per declared
scheme — defaulting to the single scheme `https` — with url
`scheme + "://" + host + basePath`, where host and basePath default to
the empty string. -/
theorem C6_swagger_server_synthesis (fs : List (String × Json)) (v host bp : String)
    (schemes : List String)
    (hv : strStartsWith v "3" = false)
    (hh : (Json.obj fs).getKeyD "host" (.str "") = .str host)
    (hb : (Json.obj fs).getKeyD "basePath" (.str "") = .str bp)
    (hs : (Json.obj fs).getKeyD "schemes" (.arr [.str "https"]) = .arr (schemes.map Json.str)) :
    extract_servers (Json.obj fs) (.str v) = .ok (.arr (schemes.map (fun sch =>
      Json.obj [("url", .str (sch ++ "://" ++ host ++ bp)),
        ("description", .str "API Server")]))) := by
  have hh' : (Json.lookup fs "host").getD (.str "") = .str host := hh
  have hb' : (Json.lookup fs "basePath").getD (.str "") = .str bp := hb
  have hs' : (Json.lookup fs "schemes").getD (.arr [.str "https"]) = .arr (schemes.map Json.str) := hs
  simp [extract_servers, Json.startswith, hv, Json.pyGetD, hh', hb', hs',
    Json.iterList, Json.pyStr, List.map_map, Function.comp,
    Bind.bind, Except.bind, pure, Except.pure]

/-- Witness for C6: a 2.0 document with no `host`, `basePath` or
`schemes` key yields the single URL `"https://"` rather than failing. -/
theorem C6_swagger_server_synthesis_witness :
    strStartsWith "2.0" "3" = false ∧
    (Json.obj []).getKeyD "host" (.str "") = .str "" ∧
    (Json.obj []).getKeyD "basePath" (.str "") = .str "" ∧
    (Json.obj []).getKeyD "schemes" (.arr [.str "https"]) = .arr (["https"].map Json.str) ∧
    extract_servers (Json.obj []) (.str "2.0") = .ok (.arr (["https"].map (fun sch =>
      Json.obj [("url", .str (sch ++ "://" ++ "" ++ "")),
        ("description", .str "API Server")]))) :=
  ⟨by decide, rfl, rfl, rfl,
    C6_swagger_server_synthesis [] "2.0" "" "" ["https"] (by decide) rfl rfl rfl⟩

/-- A 3.x document with an explicitly empty `servers` list and one
endpoint: the failing input for claim C7. -/
def empty_servers_doc : Json := .obj [("openapi", .str "3.0.0"), ("servers", .arr []),
  ("paths", .obj [("/x", .obj [("get", .obj [])])])]

/-- Claim C7 is violated by the code: on a document with a valid dialect
marker, an explicitly empty `servers` list and one endpoint, the parse
raises IndexError (from `self.spec.get('servers', [{}])[0]` in
`_generate_curl_example`) instead of resolving the empty list via a
default — an error that is neither of the two specification-level
errors. -/
theorem C7_empty_servers_index_error :
    parse_spec empty_servers_doc = .error .indexError := by
  rfl

/-- The Swagger 2.0 `/ping` document of claim C8. -/
def ping_doc : Json := .obj [("swagger", .str "2.0"),
  ("paths", .obj [("/ping", .obj [("get", .obj [("responses", .obj
    [("200", .obj [("description", .str "ok")])])])])])]

/-- Claim C8: normalizing the `/ping` document yields `endpoint_count`
1, a single endpoint with path `"/ping"` and method `"GET"`, and
responses `{"200": {"description": "ok", "schema": {}, "example": None}}`. -/
theorem C8_ping_scenario :
    (parse_spec ping_doc).map (fun m => (m.endpoint_count,
       m.endpoints.map (fun e => (e.getKeyD "path" .null, e.getKeyD "method" .null,
         e.getKeyD "responses" .null))))
      = .ok (1, [(.str "/ping", .str "GET",
          .obj [("200", .obj [("description", .str "ok"), ("schema", .obj []),
            ("example", .null)])])]) := by
  rfl

/-- Claim C2: for any dialect, the extracted endpoint's parameter list is
the parsed path-level `parameters` list followed by the parsed
operation-level `parameters` list, both in declaration order, with no
deduplication (lengths add up and each position keeps its input's name,
so two parameters sharing a name both appear). -/
theorem C2_parameter_concatenation (version : Json) (path method : String)
    (xs ys : List Json) (ofs : List (String × Json)) (e : Json)
    (hop : (Json.lookup ofs "parameters").getD (Json.arr []) = Json.arr ys)
    (h : endpoint_for version path (Json.arr xs) method (Json.obj ofs) = .ok e) :
    ∃ zx zy, parse_parameters version (Json.arr xs) = .ok zx ∧
      parse_parameters version (Json.arr ys) = .ok zy ∧
      e.lookupKey "parameters" = some (Json.arr (zx ++ zy)) ∧
      zx.length = xs.length ∧ zy.length = ys.length ∧
      (∀ i (hi : i < xs.length) (hz : i < zx.length),
        (zx.get ⟨i, hz⟩).lookupKey "name" = some ((xs.get ⟨i, hi⟩).getKeyD "name" .null)) ∧
      (∀ i (hi : i < ys.length) (hz : i < zy.length),
        (zy.get ⟨i, hz⟩).lookupKey "name" = some ((ys.get ⟨i, hi⟩).getKeyD "name" .null)) := by
  unfold endpoint_for at h
  simp only [Json.pyGetD, Json.pyGet, hop, Json.pyConcat, exceptOk_bind] at h
  cases hp : parse_parameters version (Json.arr (xs ++ ys)) with
  | error err =>
    rw [hp, exceptErr_bind] at h
    cases h
  | ok params =>
    simp only [hp, exceptOk_bind] at h
    cases hq : parse_request_body ((Json.lookup ofs "requestBody").getD Json.null) with
    | error err =>
      rw [hq, exceptErr_bind] at h
      cases h
    | ok request_body =>
      simp only [hq, exceptOk_bind] at h
      cases hr : parse_responses version ((Json.lookup ofs "responses").getD (Json.obj [])) with
      | error err =>
        rw [hr, exceptErr_bind] at h
        cases h
      | ok responses =>
        simp only [hr, exceptOk_bind, exceptPure_ok] at h
        injection h with h
        subst h
        simp only [parse_parameters, Json.iterList, exceptOk_bind] at hp
        obtain ⟨zx, zy, hzx, hzy, hsplit⟩ := mapM_ok_append hp
        refine ⟨zx, zy, ?_, ?_, ?_, mapM_ok_length hzx, mapM_ok_length hzy, ?_, ?_⟩
        · simp only [parse_parameters, Json.iterList, exceptOk_bind]
          exact hzx
        · simp only [parse_parameters, Json.iterList, exceptOk_bind]
          exact hzy
        · rw [hsplit]
          simp [Json.lookupKey, Json.lookup]
        · intro i hi hz
          exact parse_parameter_name (mapM_ok_get hzx i hi hz)
        · intro i hi hz
          exact parse_parameter_name (mapM_ok_get hzy i hi hz)

/-- A parameter object named `id`, declared both path-level and
operation-level in the C2 witness. -/
def dup_param : Json := .obj [("name", .str "id")]

/-- The 3.x-normalized form of `dup_param`. -/
def dup_param_parsed : Json := .obj [("name", .str "id"), ("in", .null),
  ("description", .str ""), ("required", .bool false), ("type", .null),
  ("format", .null), ("default", .null), ("example", .null)]

/-- The endpoint extracted in the C2 witness: the duplicate-named
parameter appears twice. -/
def dup_endpoint : Json := .obj [("path", .str "/u"), ("method", .str "GET"),
  ("summary", .str ""), ("description", .str ""), ("operation_id", .str ""),
  ("tags", .arr []), ("parameters", .arr [dup_param_parsed, dup_param_parsed]),
  ("request_body", .null), ("responses", .obj []), ("security", .arr []),
  ("deprecated", .bool false)]

/-- Witness for C2: path-level `[{"name": "id"}]` plus operation-level
`[{"name": "id"}]` yields two parameter entries, both named `id`. -/
theorem C2_parameter_concatenation_witness :
    (Json.lookup [("parameters", Json.arr [dup_param])] "parameters").getD (Json.arr [])
      = Json.arr [dup_param] ∧
    endpoint_for (.str "3.0.0") "/u" (.arr [dup_param]) "get"
      (.obj [("parameters", Json.arr [dup_param])]) = .ok dup_endpoint ∧
    (∃ zx zy, parse_parameters (Json.str "3.0.0") (Json.arr [dup_param]) = .ok zx ∧
      parse_parameters (Json.str "3.0.0") (Json.arr [dup_param]) = .ok zy ∧
      dup_endpoint.lookupKey "parameters" = some (Json.arr (zx ++ zy)) ∧
      zx.length = [dup_param].length ∧ zy.length = [dup_param].length ∧
      (∀ i (hi : i < [dup_param].length) (hz : i < zx.length),
        (zx.get ⟨i, hz⟩).lookupKey "name"
          = some (([dup_param].get ⟨i, hi⟩).getKeyD "name" .null)) ∧
      (∀ i (hi : i < [dup_param].length) (hz : i < zy.length),
        (zy.get ⟨i, hz⟩).lookupKey "name"
          = some (([dup_param].get ⟨i, hi⟩).getKeyD "name" .null))) :=
  ⟨rfl, rfl, C2_parameter_concatenation (.str "3.0.0") "/u" "get" [dup_param] [dup_param]
    [("parameters", .arr [dup_param])] dup_endpoint rfl rfl⟩

/-- A Swagger 2.0 document whose single operation carries a (nonstandard)
`requestBody` key: the counterexample input for claim C3. -/
def swagger_request_body_doc : Json := .obj [("swagger", .str "2.0"),
  ("paths", .obj [("/p", .obj [("post", .obj [("requestBody", .obj
    [("content", .obj [("application/json", .obj [])])])])])])]

/-- Counterexample to claim C3 as stated: `_extract_endpoints` calls
`_parse_request_body` for every dialect, so a Swagger 2.0 operation that
does contain a `requestBody` key gets a parsed (non-None) descriptor. -/
theorem C3_counterexample :
    (parse_spec swagger_request_body_doc).map
        (fun m => m.endpoints.map (fun e => e.getKeyD "request_body" .null))
      = .ok [Json.obj [("content_type", .str "application/json"),
          ("required", .bool false), ("description", .str ""),
          ("schema", .obj []), ("example", .null)]] := by
  rfl

/-- Claim C3, amended: the request-body descriptor of an extracted
endpoint is unset exactly when the operation's `requestBody` key is
absent (or holds `null`) — which is the normal state of every Swagger 2.0
operation — for any dialect; the parser does not gate request-body
parsing on the dialect. -/
theorem C3_absent_request_body_unset (version : Json) (path method : String)
    (path_params : Json) (ofs : List (String × Json)) (e : Json)
    (hrb : (Json.lookup ofs "requestBody").getD .null = .null)
    (h : endpoint_for version path path_params method (Json.obj ofs) = .ok e) :
    e.lookupKey "request_body" = some Json.null := by
  unfold endpoint_for at h
  obtain ⟨opv, hopv, h⟩ := exceptBind_ok h
  obtain ⟨allp, hallp, h⟩ := exceptBind_ok h
  obtain ⟨summary, hsum, h⟩ := exceptBind_ok h
  obtain ⟨descr, hdescr, h⟩ := exceptBind_ok h
  obtain ⟨opid, hopid, h⟩ := exceptBind_ok h
  obtain ⟨tags, htags, h⟩ := exceptBind_ok h
  obtain ⟨params, hparams, h⟩ := exceptBind_ok h
  obtain ⟨rb, hrbv, h⟩ := exceptBind_ok h
  obtain ⟨request_body, hreq, h⟩ := exceptBind_ok h
  obtain ⟨resps, hresps, h⟩ := exceptBind_ok h
  obtain ⟨responses, hresp, h⟩ := exceptBind_ok h
  obtain ⟨security, hsec, h⟩ := exceptBind_ok h
  obtain ⟨deprecated, hdep, h⟩ := exceptBind_ok h
  simp only [Json.pyGet, Json.pyGetD, hrb] at hrbv
  cases hrbv
  simp only [parse_request_body, Json.truthy, Bind.bind, Except.bind] at hreq
  cases hreq
  cases h
  simp [Json.lookupKey, Json.lookup]

/-- Witness for C3's amended theorem: a plain 2.0-style GET operation
with no `requestBody` key yields an unset descriptor. -/
theorem C3_absent_request_body_unset_witness :
    (Json.lookup [("responses", Json.obj [])] "requestBody").getD .null = .null ∧
    endpoint_for (.str "2.0") "/ping" (.arr []) "get" (.obj [("responses", Json.obj [])])
      = .ok (Json.obj [("path", .str "/ping"), ("method", .str "GET"),
          ("summary", .str ""), ("description", .str ""), ("operation_id", .str ""),
          ("tags", .arr []), ("parameters", .arr []), ("request_body", .null),
          ("responses", .obj []), ("security", .arr []), ("deprecated", .bool false)]) ∧
    (Json.obj [("path", .str "/ping"), ("method", .str "GET"),
      ("summary", .str ""), ("description", .str ""), ("operation_id", .str ""),
      ("tags", .arr []), ("parameters", .arr []), ("request_body", .null),
      ("responses", .obj []), ("security", .arr []), ("deprecated", .bool false)]).lookupKey
        "request_body" = some Json.null :=
  ⟨rfl, rfl, C3_absent_request_body_unset (.str "2.0") "/ping" "get" (.arr [])
    [("responses", Json.obj [])]
    (Json.obj [("path", .str "/ping"), ("method", .str "GET"),
      ("summary", .str ""), ("description", .str ""), ("operation_id", .str ""),
      ("tags", .arr []), ("parameters", .arr []), ("request_body", .null),
      ("responses", .obj []), ("security", .arr []), ("deprecated", .bool false)])
    rfl rfl⟩

/-- A heading line at the head of the list bumps the heading count. -/
theorem countHeadings_cons_some {line : String} {rest : List String}
    {p : Nat × String} (hm : headingMatch line = some p) :
    countHeadings (line :: rest) = countHeadings rest + 1 := by
  simp [countHeadings, List.filter_cons, hm]

/-- A non-heading line at the head of the list keeps the heading count. -/
theorem countHeadings_cons_none {line : String} {rest : List String}
    (hm : headingMatch line = none) :
    countHeadings (line :: rest) = countHeadings rest := by
  simp [countHeadings, List.filter_cons, hm]

/-- The splitter loop produces one section per heading line, plus one for
an initially open section. -/
theorem sectionsLoop_length (ls : List String) :
    ∀ secs cur, (sectionsLoop ls secs cur).length
      = secs.length + countHeadings ls + (if cur.isSome then 1 else 0) := by
  induction ls with
  | nil =>
    intro secs cur
    cases cur <;> simp [sectionsLoop, countHeadings]
  | cons line rest ih =>
    intro secs cur
    cases hm : headingMatch line with
    | some p =>
      obtain ⟨lv, t⟩ := p
      cases cur with
      | none =>
        simp only [sectionsLoop, hm]
        rw [ih, countHeadings_cons_some hm]
        simp
        omega
      | some c =>
        obtain ⟨lv0, t0, ls0⟩ := c
        simp only [sectionsLoop, hm]
        rw [ih, countHeadings_cons_some hm]
        simp
        omega
    | none =>
      cases cur with
      | none =>
        simp only [sectionsLoop, hm]
        rw [ih, countHeadings_cons_none hm]
      | some c =>
        obtain ⟨lv0, t0, ls0⟩ := c
        simp only [sectionsLoop, hm]
        rw [ih, countHeadings_cons_none hm]
        simp

/-- Shape invariant of the splitter loop: provided a section is open or
some remaining line is a heading, the loop's output is the already
flushed sections, then sections whose content is still a line list, then
one final section whose content is a joined string. -/
theorem sectionsLoop_shape (ls : List String) :
    ∀ secs cur, (cur.isSome = true ∨ ∃ l ∈ ls, (headingMatch l).isSome = true) →
    ∃ mid last, sectionsLoop ls secs cur = (secs ++ mid) ++ [last] ∧
      (∀ s ∈ mid, s.content.isLineList = true) ∧
      (∃ str, last.content = .joined str) := by
  induction ls with
  | nil =>
    intro secs cur hcur
    cases cur with
    | none => simp at hcur
    | some c =>
      obtain ⟨lv, t, ls0⟩ := c
      exact ⟨[], ⟨lv, t, .joined (String.intercalate "\n" ls0)⟩,
        by simp [sectionsLoop], by simp, ⟨_, rfl⟩⟩
  | cons line rest ih =>
    intro secs cur hcur
    cases hm : headingMatch line with
    | some p =>
      obtain ⟨lv, t⟩ := p
      cases cur with
      | none =>
        obtain ⟨mid, last, heq, hmid, hlast⟩ := ih secs (some (lv, t, [])) (Or.inl rfl)
        exact ⟨mid, last, by simpa [sectionsLoop, hm] using heq, hmid, hlast⟩
      | some c =>
        obtain ⟨lv0, t0, ls0⟩ := c
        obtain ⟨mid, last, heq, hmid, hlast⟩ :=
          ih (secs ++ [⟨lv0, t0, .lines ls0⟩]) (some (lv, t, [])) (Or.inl rfl)
        refine ⟨⟨lv0, t0, .lines ls0⟩ :: mid, last, ?_, ?_, hlast⟩
        · simp only [sectionsLoop, hm]
          rw [heq]
          simp
        · intro s hs
          cases hs with
          | head => simp [SectionContent.isLineList]
          | tail _ hs => exact hmid s hs
    | none =>
      cases cur with
      | none =>
        have hrest : ∃ l ∈ rest, (headingMatch l).isSome = true := by
          cases hcur with
          | inl h => simp at h
          | inr h =>
            obtain ⟨l, hl, hsome⟩ := h
            cases hl with
            | head => rw [hm] at hsome; simp at hsome
            | tail _ hl => exact ⟨l, hl, hsome⟩
        obtain ⟨mid, last, heq, hmid, hlast⟩ := ih secs none (Or.inr hrest)
        exact ⟨mid, last, by simpa [sectionsLoop, hm] using heq, hmid, hlast⟩
      | some c =>
        obtain ⟨lv0, t0, ls0⟩ := c
        obtain ⟨mid, last, heq, hmid, hlast⟩ :=
          ih secs (some (lv0, t0, ls0 ++ [line])) (Or.inl rfl)
        exact ⟨mid, last, by simpa [sectionsLoop, hm] using heq, hmid, hlast⟩

/-- A positive heading count exhibits a heading line. -/
theorem exists_heading_of_pos {ls : List String} (h : 0 < countHeadings ls) :
    ∃ l ∈ ls, (headingMatch l).isSome = true := by
  by_contra hc
  push_neg at hc
  have hnil : ls.filter (fun l => (headingMatch l).isSome) = [] := by
    rw [List.filter_eq_nil_iff]
    intro a ha
    simp [hc a ha]
  rw [countHeadings, hnil] at h
  simp at h

/-- Claim C10: on an input with at least two heading lines, the splitter
produces at least two sections; every section except the last keeps its
content as the list of its body lines, while the last section's content
is a single newline-joined string. -/
theorem C10_last_section_joined (content : String)
    (h2 : 2 ≤ countHeadings (splitLines content)) :
    2 ≤ (extract_sections content).length ∧
    (∀ s ∈ (extract_sections content).dropLast, s.content.isLineList = true) ∧
    (∃ last, (extract_sections content).getLast? = some last ∧
      ∃ str, last.content = .joined str) := by
  have hex : ∃ l ∈ splitLines content, (headingMatch l).isSome = true :=
    exists_heading_of_pos (by omega)
  obtain ⟨mid, last, heq, hmid, hlast⟩ :=
    sectionsLoop_shape (splitLines content) [] none (Or.inr hex)
  have hlen : (extract_sections content).length = countHeadings (splitLines content) := by
    rw [extract_sections, sectionsLoop_length]
    simp
  refine ⟨?_, ?_, ?_⟩
  · rw [hlen]
    exact h2
  · rw [extract_sections, heq]
    simp only [List.nil_append]
    rw [List.dropLast_concat]
    exact hmid
  · rw [extract_sections, heq]
    simp only [List.nil_append]
    exact ⟨last, List.getLast?_concat _, hlast⟩

/-- Witness for C10 on a two-heading document. -/
theorem C10_last_section_joined_witness :
    2 ≤ countHeadings (splitLines "# a\nx\ny\n## b\nz") ∧
    (2 ≤ (extract_sections "# a\nx\ny\n## b\nz").length ∧
    (∀ s ∈ (extract_sections "# a\nx\ny\n## b\nz").dropLast, s.content.isLineList = true) ∧
    (∃ last, (extract_sections "# a\nx\ny\n## b\nz").getLast? = some last ∧
      ∃ str, last.content = .joined str)) :=
  ⟨by decide, C10_last_section_joined "# a\nx\ny\n## b\nz" (by decide)⟩

end DocsApp
